import Mathlib

/-!
Shallow embedding of the Ultravox-proj call service (src/unnamed/part_000):
an Express application that places an outbound Twilio call bridged to an
Ultravox voice session, then polls Twilio for the call recording, downloads
it to `./recordings`, and appends a note to the user's call history stored
in MongoDB.

The embedding models:
  * the Mongoose data model (User, Conversation) as Lean structures, with a
    document id counter standing in for Mongo object ids;
  * `getUser` (lookup or lazily create, part_000 lines 62-70);
  * the timing of `saveRecording` invocations (the `setTimeout` delays at
    lines 118, 124 and 184) as wall-clock milliseconds, assuming each poll
    itself takes negligible time;
  * one acquisition attempt of `saveRecording` (lines 114-156) as a pure
    function over an environment recording the outcome of each external
    effect (Twilio list, media download, mkdir, file write, Mongo lookup
    and save), together with the filesystem and database state;
  * `createUltravoxCall` (lines 81-111) and the portion of `main`
    (lines 159-189) that consumes its result;
  * the two HTTP routes (lines 192-215), with JavaScript truthiness for
    the `POST /conversation` validation;
  * a reachability relation over system states generated by these
    operations, for the uniqueness / append-only invariants.

Wall-clock `Date.now` timestamps on history entries and conversations are
outside the model (they are defaulted by Mongoose, never inspected by the
code), so history entries carry only their transcript text.
-/

/-- Byte payload of a downloaded recording (`response.data` arraybuffer). -/
abbrev AudioData := List Nat

/-- User preference sub-document (part_000 lines 40-43): `speechStyle`
defaults to "neutral", `favoriteTopics` defaults to the empty list. -/
structure Preferences where
  speechStyle : String
  favoriteTopics : List String
deriving DecidableEq, Repr

/-- One `callHistory` entry (part_000 lines 44-47). The `date` field is a
`Date.now` default and is not modelled. -/
structure HistoryEntry where
  transcript : String
deriving DecidableEq, Repr

/-- A User document (part_000 lines 37-50). `id` stands in for the Mongo
`_id`, assigned from a fresh counter at creation. -/
structure User where
  id : Nat
  phoneNumber : String
  name : String
  preferences : Preferences
  callHistory : List HistoryEntry
deriving DecidableEq, Repr

/-- JavaScript values as they can appear in a parsed JSON request body.
`undef` models an absent field of `req.body`. -/
inductive JsValue where
  | undef : JsValue
  | null : JsValue
  | bool : Bool → JsValue
  | num : Int → JsValue
  | str : String → JsValue
  | arr : List JsValue → JsValue
deriving Repr

/-- JavaScript truthiness, as tested by `if (!phoneNumber || !transcript)`
(part_000 line 203): undefined, null, false, 0 and "" are falsy; every
array (even empty) is truthy. -/
def truthy : JsValue → Bool
  | .undef => false
  | .null => false
  | .bool b => b
  | .num n => n != 0
  | .str s => s != ""
  | .arr _ => true

/-- String coercion applied by Mongoose when a non-string truthy value is
used to query/fill a `String` schema path. Claims only exercise `.str`. -/
def jsKey : JsValue → String
  | .undef => "undefined"
  | .null => "null"
  | .bool b => if b then "true" else "false"
  | .num n => toString n
  | .str s => s
  | .arr _ => ""

/-- A Conversation document (part_000 lines 53-57): owning user id and the
transcript exactly as supplied in the request body. `date`/timestamps are
Mongoose defaults, not modelled. -/
structure Conversation where
  userId : Nat
  transcript : JsValue
deriving Repr

/-- The User collection plus a fresh-id counter standing in for Mongo
object-id generation. -/
structure DB where
  users : List User
  nextId : Nat
deriving Repr

/-- Default preferences per the schema defaults (part_000 lines 41-42). -/
def defaultPreferences : Preferences :=
  { speechStyle := "neutral", favoriteTopics := [] }

/-- The document built at part_000 line 66: phone number, derived display
name, schema defaults for the preferences, empty history. -/
def newUser (id : Nat) (pn : String) : User :=
  { id := id
  , phoneNumber := pn
  , name := "User-" ++ pn
  , preferences := defaultPreferences
  , callHistory := [] }

/-- Model of `getUser` (part_000 lines 62-70): find one user by phone
number; if absent, create a document with derived name and schema defaults
and save it. Returns the user and the updated collection. -/
def getUser (pn : String) (db : DB) : User × DB :=
  match db.users.find? (fun u => u.phoneNumber == pn) with
  | some u => (u, db)
  | none =>
      let u := newUser db.nextId pn
      (u, { users := db.users ++ [u], nextId := db.nextId + 1 })

/-- Effect of `user.save()` on a fetched-and-mutated document: Mongo
persists the update keyed by `_id`. -/
def DB.saveUser (db : DB) (u : User) : DB :=
  { db with users := db.users.map (fun v => if v.id = u.id then u else v) }

/-- Local filesystem: the set of directories that exist and the files
written, as a path-to-payload association (later writes win). -/
structure FS where
  dirs : List String
  files : List (String × AudioData)
deriving Repr

/-- Model of `fs.writeFileSync(path, data)`: overwrite semantics. -/
def FS.write (fs : FS) (path : String) (data : AudioData) : FS :=
  { fs with files := fs.files.filter (fun p => p.1 != path) ++ [(path, data)] }

/-- Contents of a file, if present. -/
def FS.read (fs : FS) (path : String) : Option AudioData :=
  (fs.files.find? (fun p => p.1 == path)).map (fun p => p.2)

/-- Whole mutable state the service touches: the Mongo collections and the
local filesystem. -/
structure Sys where
  db : DB
  convs : List Conversation
  fs : FS
deriving Repr

/-- Fresh process state: empty collections, empty filesystem. -/
def initSys : Sys :=
  { db := { users := [], nextId := 0 }, convs := [], fs := { dirs := [], files := [] } }

/-! ### Timing of the recording-acquisition polls

`main` schedules the first `saveRecording` invocation 60000 ms after the
Twilio call is created (line 184). Every `saveRecording` invocation first
awaits a 60000 ms timer (line 118) before listing recordings, and on a
zero-recordings result schedules the next invocation 30000 ms later
(line 124). All times are milliseconds from call origination, idealising
the poll and scheduling overhead to zero. -/

/-- Delay of `setTimeout(() => saveRecording(...), 60000)` in `main`
(part_000 line 184). -/
def initialDelayMs : Nat := 60000

/-- The `await new Promise(resolve => setTimeout(resolve, 60000))` at the
top of every `saveRecording` invocation (part_000 line 118). -/
def internalWaitMs : Nat := 60000

/-- Delay of the zero-recordings retry `setTimeout` (part_000 line 124). -/
def retryDelayMs : Nat := 30000

/-- Time at which the k-th invocation of `saveRecording` starts, when every
earlier poll reported zero recordings: invocation k polls at its start
time plus `internalWaitMs`, and the next invocation is scheduled
`retryDelayMs` after that poll. -/
def invocationTime : Nat → Nat
  | 0 => initialDelayMs
  | k + 1 => invocationTime k + internalWaitMs + retryDelayMs

/-- Time of the k-th poll (`client.recordings.list`, part_000 line 120),
when every earlier poll reported zero recordings. -/
def pollTime (k : Nat) : Nat := invocationTime k + internalWaitMs

/-! ### One acquisition attempt of `saveRecording` -/

/-- A recording descriptor as returned by `client.recordings.list`
(fields the code reads: `sid` and `mediaUrl`). -/
structure RecordingDesc where
  sid : String
  mediaUrl : String
deriving DecidableEq, Repr

/-- The `axios.get` request issued for the media: URL and HTTP basic-auth
credentials (part_000 lines 133-139). -/
structure DownloadRequest where
  url : String
  authUser : String
  authPass : String
deriving DecidableEq, Repr

/-- Outcomes of the external effects of one `saveRecording` invocation, in
program order. An `Except.error` / `some` models the corresponding await
throwing; the catch block at line 153 receives it. -/
structure WorkerEnv where
  /-- outcome of `client.recordings.list` by call sid, limit 1 (line 120). -/
  listResult : Except String (List RecordingDesc)
  /-- outcome of `axios.get(recordingUrl, ...)` (lines 133-139), as a
  function of the request actually issued. -/
  download : DownloadRequest → Except String AudioData
  /-- outcome of `fs.mkdirSync` on ./recordings, recursive (line 142). -/
  mkdirResult : Except String Unit
  /-- outcome of `fs.writeFileSync(filePath, response.data)` (line 146). -/
  writeResult : Except String Unit
  /-- the `await getUser(phoneNumber)` call (line 150) throwing. -/
  getUserResult : Option String
  /-- the `await user.save()` call (line 152) throwing. -/
  saveResult : Option String

/-- How one `saveRecording` invocation ends: a 30 s retry was scheduled
(zero recordings), the recording was saved and the history appended, or an
error was caught and logged (lines 153-155) — in which case nothing further
is scheduled and nothing is thrown to the caller. -/
inductive AttemptStatus where
  | retryScheduled : Nat → AttemptStatus
  | saved : String → DownloadRequest → AttemptStatus
  | errorLogged : String → AttemptStatus
deriving DecidableEq, Repr

/-- One invocation of `saveRecording(callSid, phoneNumber)` (part_000
lines 114-156) after its initial 60 s wait, as a pure function of the
effect outcomes and the current state. State changes made before a later
effect throws are kept, as on the real machine. -/
def saveRecordingAttempt (accountSid authToken pn : String)
    (env : WorkerEnv) (s : Sys) : AttemptStatus × Sys :=
  match env.listResult with
  | .error e => (.errorLogged e, s)
  | .ok [] => (.retryScheduled retryDelayMs, s)
  | .ok (recording :: _) =>
      let recordingUrl := recording.mediaUrl ++ ".mp3"
      let req : DownloadRequest :=
        { url := recordingUrl, authUser := accountSid, authPass := authToken }
      match env.download req with
      | .error e => (.errorLogged e, s)
      | .ok data =>
          let needMkdir := !(s.fs.dirs.contains ("./recordings"))
          match (if needMkdir then env.mkdirResult else .ok ()) with
          | .error e => (.errorLogged e, s)
          | .ok _ =>
              let fs1 := if needMkdir
                then { s.fs with dirs := s.fs.dirs ++ ["./recordings"] }
                else s.fs
              let filePath := "./recordings/" ++ recording.sid ++ ".mp3"
              match env.writeResult with
              | .error e => (.errorLogged e, { s with fs := fs1 })
              | .ok _ =>
                  let fs2 := fs1.write filePath data
                  match env.getUserResult with
                  | some e => (.errorLogged e, { s with fs := fs2 })
                  | none =>
                      let ud := getUser pn s.db
                      match env.saveResult with
                      | some e => (.errorLogged e, { s with fs := fs2, db := ud.2 })
                      | none =>
                          let entry : HistoryEntry :=
                            { transcript := "Recording saved at " ++ filePath }
                          let u2 := { ud.1 with
                            callHistory := ud.1.callHistory ++ [entry] }
                          (.saved filePath req,
                            { s with fs := fs2, db := ud.2.saveUser u2 })

/-- Call history of the (first) user with the given phone number, or `[]`
if no such user exists. -/
def historyOf (db : DB) (pn : String) : List HistoryEntry :=
  match db.users.find? (fun u => u.phoneNumber == pn) with
  | some u => u.callHistory
  | none => []

/-! ### Repeated acquisition attempts

After an attempt ends in `retryScheduled`, the `setTimeout` at part_000
line 124 runs the next invocation; after `saved` or `errorLogged` nothing
further is scheduled (the function just returns, and the catch block only
logs). -/

/-- State of the acquisition workflow after some number of invocations:
still actively re-invoking, or halted with the final status. -/
inductive WorkerPhase where
  | active : Sys → WorkerPhase
  | halted : AttemptStatus → Sys → WorkerPhase
deriving Repr

/-- The workflow after `k` invocations of `saveRecording`, where the k-th
invocation observes effect outcomes `envs k`. -/
def workerRun (accountSid authToken pn : String) (envs : Nat → WorkerEnv)
    (start : Sys) : Nat → WorkerPhase
  | 0 => .active start
  | k + 1 =>
      match workerRun accountSid authToken pn envs start k with
      | .active s =>
          match saveRecordingAttempt accountSid authToken pn (envs k) s with
          | (.retryScheduled _, s2) => .active s2
          | (st, s2) => .halted st s2
      | .halted st s => .halted st s

/-! ### The Ultravox call and the main flow -/

/-- Result of running `JSON.parse` on the concatenated response body
(part_000 line 104). The code only ever reads the string field `joinUrl`,
so a parsed body is modelled as its string fields. -/
inductive JsonParse where
  | parsed : List (String × String) → JsonParse
  | malformed : JsonParse
deriving Repr

/-- What the https request of `createUltravoxCall` observes: either a
request-level error event (line 107) or a response with a status code and
a body (lines 102-105). -/
inductive HttpsEvent where
  | reqError : String → HttpsEvent
  | resp : Nat → JsonParse → HttpsEvent
deriving Repr

/-- How the promise returned by `createUltravoxCall` settles. A throw
inside the response end handler escapes the promise without settling it
(`uncaughtThrow`). -/
inductive PromiseOutcome where
  | resolved : List (String × String) → PromiseOutcome
  | rejected : String → PromiseOutcome
  | uncaughtThrow : PromiseOutcome
deriving Repr

/-- Model of `createUltravoxCall` (part_000 lines 81-111). The response
status code is never inspected: any response whose body parses resolves
the promise with the parsed body; a request error rejects it; a body that
fails `JSON.parse` throws inside the end handler. -/
def createUltravoxCall (ev : HttpsEvent) : PromiseOutcome :=
  match ev with
  | .reqError e => .rejected e
  | .resp _status (.parsed body) => .resolved body
  | .resp _status .malformed => .uncaughtThrow

/-- The `joinUrl` field of a resolved body, if present. -/
def joinUrlOf (body : List (String × String)) : Option String :=
  (body.find? (fun p => p.1 == "joinUrl")).map (fun p => p.2)

/-- How `main` (part_000 lines 159-189) proceeds from the Ultravox call
onward: a rejected promise is caught at line 186 and logged (the flow
aborts, no Twilio call is placed, no retry); a resolved promise leads to
the Twilio call with the TwiML built from `joinUrl` (an absent field
renders as the string undefined). -/
inductive MainOutcome where
  | abortedLogged : String → MainOutcome
  | callPlaced : String → MainOutcome
  | crashed : MainOutcome
deriving Repr

/-- The TwiML string interpolated at part_000 line 174. -/
def twimlFor (joinUrl : String) : String :=
  "<Response><Connect><Stream url=\"" ++ joinUrl ++ "\"/></Connect></Response>"

/-- Portion of `main` from `createUltravoxCall` to the Twilio call
(part_000 lines 167-181), as a function of the https outcome. -/
def mainFlow (ev : HttpsEvent) : MainOutcome :=
  match createUltravoxCall ev with
  | .rejected e => .abortedLogged e
  | .uncaughtThrow => .crashed
  | .resolved body =>
      let joinUrl := match joinUrlOf body with
        | some s => s
        | none => "undefined"
      .callPlaced (twimlFor joinUrl)

/-! ### HTTP routes -/

/-- Outcome of one route handler: status code, resulting system state,
JSON body on success, error message on failure. -/
structure HttpResult (α : Type) where
  status : Nat
  sys : Sys
  body : Option α
  err : Option String
deriving Repr

/-- Handler of GET /user/:phoneNumber (part_000 lines 192-199): resolves
or lazily creates the user and returns it with status 200; if the awaited
storage operation throws, answers 500 with the error message. -/
def getUserRoute (pn : String) (storageFail : Option String) (s : Sys) :
    HttpResult User :=
  match storageFail with
  | some e => { status := 500, sys := s, body := none, err := some e }
  | none =>
      let ud := getUser pn s.db
      { status := 200, sys := { s with db := ud.2 }, body := some ud.1, err := none }

/-- Handler of POST /conversation (part_000 lines 201-215): rejects with
400 when either field of the body is falsy (line 203); otherwise resolves
the user (`storageFail` models that await throwing) and saves a new
Conversation (`saveFail` models that await throwing), answering 201 with
the saved record or 500 with the error message. -/
def postConversation (phoneNumber transcript : JsValue)
    (storageFail saveFail : Option String) (s : Sys) : HttpResult Conversation :=
  if !(truthy phoneNumber && truthy transcript) then
    { status := 400, sys := s, body := none
    , err := some ("Phone number and transcript required.") }
  else
    match storageFail with
    | some e => { status := 500, sys := s, body := none, err := some e }
    | none =>
        let ud := getUser (jsKey phoneNumber) s.db
        match saveFail with
        | some e =>
            { status := 500, sys := { s with db := ud.2 }, body := none, err := some e }
        | none =>
            let conv : Conversation := { userId := ud.1.id, transcript := transcript }
            { status := 201
            , sys := { s with db := ud.2, convs := s.convs ++ [conv] }
            , body := some conv, err := none }

/-! ### Reachable system states -/

/-- One externally triggered operation that can touch the system state:
an HTTP request on either route, one recording-acquisition invocation, or
the user lookup performed by `main` before placing the call. -/
inductive SysOp where
  | httpGetUser : String → Option String → SysOp
  | httpPostConversation : JsValue → JsValue → Option String → Option String → SysOp
  | workerAttempt : String → String → String → WorkerEnv → SysOp
  | mainGetUser : String → SysOp

/-- Effect of one operation on the system state. -/
def sysStep (s : Sys) : SysOp → Sys
  | .httpGetUser pn f => (getUserRoute pn f s).sys
  | .httpPostConversation pnv tv f g => (postConversation pnv tv f g s).sys
  | .workerAttempt sid tok pn env => (saveRecordingAttempt sid tok pn env s).2
  | .mainGetUser pn => { s with db := (getUser pn s.db).2 }

/-- States reachable from a fresh process by any sequence of operations. -/
inductive Reachable : Sys → Prop where
  | init : Reachable initSys
  | step (s : Sys) (op : SysOp) : Reachable s → Reachable (sysStep s op)

/-- Structural database invariant: ids are below the fresh counter, ids
are pairwise distinct, phone numbers are pairwise distinct. -/
def DBInv (db : DB) : Prop :=
  (∀ u ∈ db.users, u.id < db.nextId) ∧
  db.users.Pairwise (fun a b => a.id ≠ b.id) ∧
  db.users.Pairwise (fun a b => a.phoneNumber ≠ b.phoneNumber)

/-- The user collection of `db2` extends that of `db`: every user document
survives with its id and phone number, and its call history is only ever
appended to (existing entries are neither removed, reordered nor
rewritten; no user is deleted). -/
def ExtendsDB (db db2 : DB) : Prop :=
  ∀ u ∈ db.users, ∃ u2 ∈ db2.users,
    u2.id = u.id ∧ u2.phoneNumber = u.phoneNumber ∧
    ∃ extra, u2.callHistory = u.callHistory ++ extra

/-! ### Sample inputs used by concrete witnesses -/

/-- Effect environment in which Twilio reports zero recordings and every
other effect would succeed. -/
def zeroRecordingsEnv : WorkerEnv :=
  { listResult := .ok []
  , download := fun _ => .ok []
  , mkdirResult := .ok ()
  , writeResult := .ok ()
  , getUserResult := none
  , saveResult := none }

/-- Effect environment in which the Twilio recording listing throws. -/
def listFailEnv : WorkerEnv :=
  { zeroRecordingsEnv with listResult := .error ("ECONNRESET") }

/-- A concrete recording descriptor. -/
def sampleRecording : RecordingDesc :=
  { sid := "RE123", mediaUrl := "https://api.twilio.com/rec/RE123" }

/-- Effect environment in which the listing returns `r`, the download
yields `data`, and all local effects succeed. -/
def successEnv (r : RecordingDesc) (data : AudioData) : WorkerEnv :=
  { listResult := .ok [r]
  , download := fun _ => .ok data
  , mkdirResult := .ok ()
  , writeResult := .ok ()
  , getUserResult := none
  , saveResult := none }

/-! ## Claims

Each claim of the specification is settled by one theorem below. -/

/-! ### C2 — initial delay before the first poll -/

/-- C2 counterexample: the first poll of the telephony provider does NOT
occur 60 seconds after call origination. `main` schedules `saveRecording`
60 s after the call (line 184), but `saveRecording` itself awaits a
further 60 s timer (line 118) before listing recordings. -/
theorem firstPoll_not_at_60s : pollTime 0 ≠ 60000 := by decide

/-- C2 (amended): the first poll of the telephony provider occurs 120
seconds after call origination — the 60 s scheduling delay in `main` plus
the 60 s wait at the top of `saveRecording`. -/
theorem firstPoll_at_120s :
    pollTime 0 = 120000 ∧ pollTime 0 = initialDelayMs + internalWaitMs := by
  decide

/-! ### C1 — unbounded zero-recordings retry -/

/-- C1 counterexample: after a poll reports zero recordings, the next poll
does NOT happen 30 seconds later. The retry `setTimeout` is 30 s
(line 124), but the re-invoked `saveRecording` waits another 60 s
(line 118) before polling, so consecutive polls are 90 s apart. -/
theorem pollInterval_not_30s : ¬(pollTime 1 = pollTime 0 + 30000) := by
  decide

/-- C1 (amended): whenever a poll reports zero recordings, the worker
schedules a re-invocation 30 s later which itself waits a further 60 s
before polling, so consecutive polls are 90 s apart; this repeats
indefinitely — after any number of polls that all reported zero
recordings the workflow is still active (it has not given up, raised no
error, and left the state untouched), with no maximum retry count. -/
theorem zeroRecordings_retry_forever (sid tok pn : String)
    (envs : Nat → WorkerEnv) (s : Sys)
    (h : ∀ k, (envs k).listResult = Except.ok []) :
    (∀ n, workerRun sid tok pn envs s n = WorkerPhase.active s) ∧
    (∀ k, pollTime (k + 1) = pollTime k + retryDelayMs + internalWaitMs) := by
  constructor
  · intro n
    induction n with
    | zero => rfl
    | succ k ih => simp [workerRun, ih, saveRecordingAttempt, h k]
  · intro k
    simp [pollTime, invocationTime, internalWaitMs, retryDelayMs]

/-- C1 witness: with a provider that always answers zero recordings, the
worker is still active after 3 retries (it has not given up). -/
theorem zeroRecordings_retry_forever_witness :
    workerRun ("AC") ("tok") ("+17206035208") (fun _ => zeroRecordingsEnv)
      initSys 3 = WorkerPhase.active initSys :=
  (zeroRecordings_retry_forever ("AC") ("tok") ("+17206035208")
    (fun _ => zeroRecordingsEnv) initSys (fun _ => rfl)).1 3

/-! ### C5 — Ultravox call error handling -/

/-- C5 counterexample: a non-success response (status 500) whose body is
valid JSON does not fail `createUltravoxCall` at all — the promise
resolves with the parsed body, and `main` proceeds to place the Twilio
call with the join URL rendered as the string undefined (the status code
is never inspected, so nothing is surfaced and the flow is not aborted). -/
theorem createUltravoxCall_ignores_status :
    createUltravoxCall (.resp 500 (.parsed [("error", "unauthorized")])) =
      PromiseOutcome.resolved [("error", "unauthorized")] ∧
    mainFlow (.resp 500 (.parsed [("error", "unauthorized")])) =
      MainOutcome.callPlaced (twimlFor ("undefined")) := by
  exact ⟨rfl, rfl⟩

/-- C5 (amended): `createUltravoxCall` rejects only on a request-level
network error, and that rejection is caught by `main`, which logs it and
aborts the call-placement flow without retry. Any response whose body is
valid JSON resolves the promise regardless of HTTP status, and the flow
proceeds; a malformed body throws inside the response handler, escaping
the promise, rather than rejecting it. -/
theorem createUltravoxCall_spec (e : String) (status : Nat)
    (body : List (String × String)) :
    createUltravoxCall (.reqError e) = PromiseOutcome.rejected e ∧
    mainFlow (.reqError e) = MainOutcome.abortedLogged e ∧
    createUltravoxCall (.resp status (.parsed body)) = PromiseOutcome.resolved body ∧
    createUltravoxCall (.resp status .malformed) = PromiseOutcome.uncaughtThrow := by
  exact ⟨rfl, rfl, rfl, rfl⟩

/-! ### C10 — truthiness, not presence, is validated -/

/-- C10: POST /conversation answers 400 and changes nothing (in particular
it creates no Conversation) whenever either body field is falsy, because
line 203 tests JavaScript truthiness rather than presence — so a present
but falsy field such as the empty string is rejected too. -/
theorem postConversation_rejects_falsy (pnv tv : JsValue)
    (sf gf : Option String) (s : Sys)
    (h : truthy pnv = false ∨ truthy tv = false) :
    (postConversation pnv tv sf gf s).status = 400 ∧
    (postConversation pnv tv sf gf s).sys = s ∧
    (postConversation pnv tv sf gf s).body = none := by
  rcases h with h | h <;> simp [postConversation, h]

/-- C10 witness: a request with phoneNumber present but equal to the empty
string (and a non-empty transcript) is rejected with 400, no state change,
no record. -/
theorem postConversation_rejects_falsy_witness :
    truthy (JsValue.str ("")) = false ∧
    ((postConversation (JsValue.str ("")) (JsValue.str ("hello")) none none
        initSys).status = 400 ∧
      (postConversation (JsValue.str ("")) (JsValue.str ("hello")) none none
        initSys).sys = initSys ∧
      (postConversation (JsValue.str ("")) (JsValue.str ("hello")) none none
        initSys).body = none) :=
  ⟨rfl, postConversation_rejects_falsy (JsValue.str ("")) (JsValue.str ("hello"))
    none none initSys (Or.inl rfl)⟩

/-! ### C8 — POST /conversation validation and success -/

/-- C8: POST /conversation with a missing transcript or phoneNumber
answers 400 and creates no Conversation; with both fields present and
valid it answers 201 with a Conversation whose userId is the resolved
user's id and whose transcript equals the request's, appending exactly
that record to the collection. -/
theorem conversationRoute_spec (pnv tv : JsValue) (sf gf : Option String)
    (s : Sys) :
    ((pnv = JsValue.undef ∨ tv = JsValue.undef) →
      (postConversation pnv tv sf gf s).status = 400 ∧
      (postConversation pnv tv sf gf s).sys = s ∧
      (postConversation pnv tv sf gf s).body = none) ∧
    (∀ pn, pnv = JsValue.str pn → truthy pnv = true → truthy tv = true →
      (postConversation pnv tv none none s).status = 201 ∧
      (postConversation pnv tv none none s).body =
        some { userId := ((getUser pn s.db).1).id, transcript := tv } ∧
      (postConversation pnv tv none none s).sys.convs =
        s.convs ++ [{ userId := ((getUser pn s.db).1).id, transcript := tv }]) := by
  constructor
  · intro h
    rcases h with h | h <;> subst h <;> simp [postConversation, truthy]
  · intro pn hpn h1 h2
    subst hpn
    simp [postConversation, h1, h2, jsKey]

/-- C8 witness: a missing phoneNumber yields 400; a valid pair yields 201. -/
theorem conversationRoute_spec_witness :
    (postConversation JsValue.undef (JsValue.str ("hi")) none none
      initSys).status = 400 ∧
    (postConversation (JsValue.str ("+15551234")) (JsValue.str ("hi")) none none
      initSys).status = 201 :=
  ⟨((conversationRoute_spec JsValue.undef (JsValue.str ("hi")) none none
      initSys).1 (Or.inl rfl)).1,
   ((conversationRoute_spec (JsValue.str ("+15551234")) (JsValue.str ("hi"))
      none none initSys).2 ("+15551234") rfl (by decide) (by decide)).1⟩

/-! ### C9 — GET /user/:phoneNumber auto-creates, never 404 -/

/-- C9: GET /user/:phoneNumber answers 200 or 500 and never 404; 500
happens exactly when the storage operation fails; for an unseen number
with working storage it answers 200 with the auto-created default profile,
which is persisted. -/
theorem userRoute_spec (pn : String) (f : Option String) (s : Sys) :
    ((getUserRoute pn f s).status = 200 ∨ (getUserRoute pn f s).status = 500) ∧
    (getUserRoute pn f s).status ≠ 404 ∧
    ((getUserRoute pn f s).status = 500 ↔ f.isSome = true) ∧
    ((∀ u ∈ s.db.users, u.phoneNumber ≠ pn) → f = none →
      (getUserRoute pn f s).status = 200 ∧
      (getUserRoute pn f s).body = some (newUser s.db.nextId pn) ∧
      (getUserRoute pn f s).sys.db.users = s.db.users ++ [newUser s.db.nextId pn]) := by
  cases f with
  | some e => simp [getUserRoute]
  | none =>
    refine ⟨Or.inl rfl, by simp [getUserRoute], by simp [getUserRoute], ?_⟩
    intro h _
    have hf : s.db.users.find? (fun u => u.phoneNumber == pn) = none := by
      rw [List.find?_eq_none]
      intro u hu
      simpa using h u hu
    simp [getUserRoute, getUser, hf]

/-- C9 witness: an unseen number on a fresh state yields 200 with the
auto-created default profile. -/
theorem userRoute_spec_witness :
    (getUserRoute ("+17206035208") none initSys).status = 200 ∧
    (getUserRoute ("+17206035208") none initSys).body =
      some (newUser initSys.db.nextId ("+17206035208")) :=
  ⟨((userRoute_spec ("+17206035208") none initSys).2.2.2 (by simp [initSys]) rfl).1,
   ((userRoute_spec ("+17206035208") none initSys).2.2.2 (by simp [initSys]) rfl).2.1⟩

/-! ### C6 — getOrCreateUser creates once, then returns the same record -/

/-- C6: for a phone number not previously seen, `getUser` creates exactly
one User with the derived default name and the default preferences
(speech style neutral, empty favorite topics) and persists it; a second
call with the same number returns the very same record without creating a
duplicate. -/
theorem getOrCreateUser_spec (pn : String) (db : DB)
    (h : ∀ u ∈ db.users, u.phoneNumber ≠ pn) :
    (getUser pn db).1 = newUser db.nextId pn ∧
    (getUser pn db).1.name = "User-" ++ pn ∧
    (getUser pn db).1.preferences.speechStyle = "neutral" ∧
    (getUser pn db).1.preferences.favoriteTopics = [] ∧
    (getUser pn db).2.users = db.users ++ [newUser db.nextId pn] ∧
    ((getUser pn db).2.users.countP (fun u => u.phoneNumber == pn)) = 1 ∧
    getUser pn (getUser pn db).2 = ((getUser pn db).1, (getUser pn db).2) := by
  have hf : db.users.find? (fun u => u.phoneNumber == pn) = none := by
    rw [List.find?_eq_none]
    intro u hu
    simpa using h u hu
  have hcount : db.users.countP (fun u => u.phoneNumber == pn) = 0 := by
    rw [List.countP_eq_zero]
    intro u hu
    simpa using h u hu
  refine ⟨?_, ?_, ?_, ?_, ?_, ?_, ?_⟩ <;>
    simp [getUser, hf, newUser, defaultPreferences, hcount]

/-- C6 witness: creating then re-fetching a concrete number on an empty
collection. -/
theorem getOrCreateUser_spec_witness :
    (getUser ("+17206035208") { users := [], nextId := 0 }).1 =
      newUser 0 ("+17206035208") ∧
    ((getUser ("+17206035208") { users := [], nextId := 0 }).2.users.countP
      (fun u => u.phoneNumber == ("+17206035208"))) = 1 :=
  ⟨(getOrCreateUser_spec ("+17206035208") { users := [], nextId := 0 }
      (by simp)).1,
   (getOrCreateUser_spec ("+17206035208") { users := [], nextId := 0 }
      (by simp)).2.2.2.2.2.1⟩

/-! ### Helper lemmas for the acquisition success path -/

/-- Updating the found user's document by id keeps it the first match of
the phone-number query (an earlier same-id entry would be replaced by the
updated document, which also matches). -/
theorem find?_update_found (l : List User) (u u2 : User) (p : User → Bool)
    (hp2 : p u2 = true) (hid : u2.id = u.id) :
    l.find? p = some u →
    (l.map (fun v => if v.id = u2.id then u2 else v)).find? p = some u2 := by
  induction l with
  | nil => intro h; simp at h
  | cons a l ih =>
    intro h
    by_cases ha : p a
    · rw [List.find?_cons_of_pos _ ha] at h
      injection h with h2
      rw [h2]
      simp only [List.map_cons]
      rw [if_pos hid.symm]
      exact List.find?_cons_of_pos _ hp2
    · rw [List.find?_cons_of_neg _ ha] at h
      simp only [List.map_cons]
      by_cases hida : a.id = u2.id
      · rw [if_pos hida]
        exact List.find?_cons_of_pos _ hp2
      · rw [if_neg hida]
        rw [List.find?_cons_of_neg _ ha]
        exact ih h

/-- When the phone number was unseen, the freshly appended-and-updated
document is the first match of the phone-number query. -/
theorem find?_update_append (l : List User) (u u2 : User) (p : User → Bool)
    (hp2 : p u2 = true) (hid : u2.id = u.id)
    (hnone : l.find? p = none) :
    ((l ++ [u]).map (fun v => if v.id = u2.id then u2 else v)).find? p = some u2 := by
  induction l with
  | nil =>
    simp only [List.nil_append, List.map_cons, List.map_nil]
    rw [if_pos hid.symm]
    exact List.find?_cons_of_pos _ hp2
  | cons a l ih =>
    have ha : ¬ p a := List.find?_eq_none.mp hnone a (by simp)
    have hl : l.find? p = none := by
      rw [List.find?_eq_none]
      intro x hx
      exact List.find?_eq_none.mp hnone x (by simp [hx])
    simp only [List.cons_append, List.map_cons]
    by_cases hida : a.id = u2.id
    · rw [if_pos hida]
      exact List.find?_cons_of_pos _ hp2
    · rw [if_neg hida]
      rw [List.find?_cons_of_neg _ ha]
      exact ih hl

/-- Reading back a just-written file returns the written payload. -/
theorem FS.read_write (fs : FS) (path : String) (data : AudioData) :
    (fs.write path data).read path = some data := by
  unfold FS.write FS.read
  simp only [List.find?_append]
  have h1 : (fs.files.filter (fun p => p.1 != path)).find?
      (fun p => p.1 == path) = none := by
    rw [List.find?_eq_none]
    intro x hx
    rcases List.mem_filter.mp hx with ⟨_, hx2⟩
    simp only [bne_iff_ne, ne_eq] at hx2
    simp [hx2]
  rw [h1]
  simp

/-- Saving a same-id update of the found user makes its (new) history the
one the phone-number lookup sees. -/
theorem historyOf_saveUser_found (db : DB) (pn : String) (u u2 : User)
    (hfind : db.users.find? (fun v => v.phoneNumber == pn) = some u)
    (hpn : u2.phoneNumber = pn) (hid : u2.id = u.id) :
    historyOf (db.saveUser u2) pn = u2.callHistory := by
  have h := find?_update_found db.users u u2 (fun v => v.phoneNumber == pn)
    (by simp [hpn]) hid hfind
  simp only [historyOf, DB.saveUser]
  rw [h]

/-- Saving a same-id update of a freshly created user makes its history
the one the phone-number lookup sees. -/
theorem historyOf_saveUser_unseen (db : DB) (pn : String) (u u2 : User)
    (hfind : db.users.find? (fun v => v.phoneNumber == pn) = none)
    (hpn : u2.phoneNumber = pn) (hid : u2.id = u.id) :
    historyOf (({ users := db.users ++ [u], nextId := db.nextId + 1 } : DB).saveUser u2) pn
      = u2.callHistory := by
  have h := find?_update_append db.users u u2 (fun v => v.phoneNumber == pn)
    (by simp [hpn]) hid hfind
  simp only [historyOf, DB.saveUser]
  rw [h]

/-- The history-append performed by `saveRecording` (fetch or create the
user, push one entry, save) appends exactly one entry to the history the
phone-number lookup sees. -/
theorem historyOf_getUser_save (db : DB) (pn : String) (entry : HistoryEntry) :
    historyOf ((getUser pn db).2.saveUser
      { (getUser pn db).1 with
        callHistory := (getUser pn db).1.callHistory ++ [entry] }) pn =
      historyOf db pn ++ [entry] := by
  rcases hfind : db.users.find? (fun v => v.phoneNumber == pn) with _ | u
  · have hg1 : (getUser pn db).1 = newUser db.nextId pn := by simp [getUser, hfind]
    have hg2 : (getUser pn db).2 =
        { users := db.users ++ [newUser db.nextId pn], nextId := db.nextId + 1 } := by
      simp [getUser, hfind]
    rw [hg1, hg2]
    refine Eq.trans
      (historyOf_saveUser_unseen db pn (newUser db.nextId pn) _ hfind rfl rfl) ?_
    simp [historyOf, hfind, newUser]
  · have hpn : u.phoneNumber = pn := by
      have := List.find?_some hfind
      simpa using this
    have hg1 : (getUser pn db).1 = u := by simp [getUser, hfind]
    have hg2 : (getUser pn db).2 = db := by simp [getUser, hfind]
    rw [hg1, hg2]
    refine Eq.trans (historyOf_saveUser_found db pn u _ hfind hpn rfl) ?_
    simp [historyOf, hfind]

/-- Writing a file does not change the set of directories. -/
theorem FS.write_dirs (fs : FS) (path : String) (data : AudioData) :
    (fs.write path data).dirs = fs.dirs := rfl

/-! ### C3 — successful acquisition -/

/-- C3: when the poll returns at least one descriptor and the remaining
effects succeed, the worker takes the first descriptor, fetches its media
URL with the fixed ".mp3" suffix under basic auth with the provider
credentials, ensures the ./recordings directory exists, stores the payload
under a filename derived from the recording sid, and appends exactly one
history entry referencing that path to the user's record. -/
theorem acquisitionSuccess_spec (sid tok pn : String) (env : WorkerEnv)
    (s : Sys) (r : RecordingDesc) (rest : List RecordingDesc) (data : AudioData)
    (hlist : env.listResult = Except.ok (r :: rest))
    (hdl : env.download { url := r.mediaUrl ++ ".mp3", authUser := sid, authPass := tok }
      = Except.ok data)
    (hmk : env.mkdirResult = Except.ok ())
    (hwr : env.writeResult = Except.ok ())
    (hgu : env.getUserResult = none)
    (hsv : env.saveResult = none) :
    (saveRecordingAttempt sid tok pn env s).1 =
      AttemptStatus.saved ("./recordings/" ++ r.sid ++ ".mp3")
        { url := r.mediaUrl ++ ".mp3", authUser := sid, authPass := tok } ∧
    (saveRecordingAttempt sid tok pn env s).2.fs.read
      ("./recordings/" ++ r.sid ++ ".mp3") = some data ∧
    ((saveRecordingAttempt sid tok pn env s).2.fs.dirs.contains ("./recordings")) = true ∧
    historyOf (saveRecordingAttempt sid tok pn env s).2.db pn =
      historyOf s.db pn ++
        [{ transcript := "Recording saved at " ++ ("./recordings/" ++ r.sid ++ ".mp3") }] := by
  obtain ⟨lr, dl, mkr, wrr, gur, svr⟩ := env
  have hl2 : lr = Except.ok (r :: rest) := hlist
  have hd2 : dl { url := r.mediaUrl ++ ".mp3", authUser := sid, authPass := tok }
      = Except.ok data := hdl
  have hm2 : mkr = Except.ok () := hmk
  have hw2 : wrr = Except.ok () := hwr
  have hg2 : gur = none := hgu
  have hs2 : svr = none := hsv
  subst hl2 hm2 hw2 hg2 hs2
  by_cases hc : ("./recordings" : String) ∈ s.fs.dirs <;>
    refine ⟨?_, ?_, ?_, ?_⟩ <;>
    simp [saveRecordingAttempt, hc, hd2, FS.read_write, FS.write_dirs,
      historyOf_getUser_save]

/-- C3 witness: a concrete successful acquisition on a fresh state. -/
theorem acquisitionSuccess_spec_witness :
    (saveRecordingAttempt ("AC") ("tok") ("+17206035208")
        (successEnv sampleRecording [1, 2, 3]) initSys).1 =
      AttemptStatus.saved ("./recordings/" ++ sampleRecording.sid ++ ".mp3")
        { url := sampleRecording.mediaUrl ++ ".mp3", authUser := "AC", authPass := "tok" } ∧
    historyOf (saveRecordingAttempt ("AC") ("tok") ("+17206035208")
        (successEnv sampleRecording [1, 2, 3]) initSys).2.db ("+17206035208") =
      historyOf initSys.db ("+17206035208") ++
        [{ transcript := "Recording saved at " ++
            ("./recordings/" ++ sampleRecording.sid ++ ".mp3") }] :=
  ⟨(acquisitionSuccess_spec ("AC") ("tok") ("+17206035208")
      (successEnv sampleRecording [1, 2, 3]) initSys sampleRecording [] [1, 2, 3]
      rfl rfl rfl rfl rfl rfl).1,
   (acquisitionSuccess_spec ("AC") ("tok") ("+17206035208")
      (successEnv sampleRecording [1, 2, 3]) initSys sampleRecording [] [1, 2, 3]
      rfl rfl rfl rfl rfl rfl).2.2.2⟩

/-! ### C4 — failure handling of one acquisition attempt -/

/-- When the listing returned at least one descriptor, no retry is ever
scheduled, whatever happens afterwards. -/
theorem attempt_not_retry_of_cons (sid tok pn : String) (env : WorkerEnv)
    (s : Sys) (r : RecordingDesc) (rest : List RecordingDesc)
    (hl : env.listResult = Except.ok (r :: rest)) (d : Nat) :
    (saveRecordingAttempt sid tok pn env s).1 ≠ AttemptStatus.retryScheduled d := by
  obtain ⟨lr, dl, mkr, wrr, gur, svr⟩ := env
  have hl2 : lr = Except.ok (r :: rest) := hl
  subst hl2
  by_cases hc : ("./recordings" : String) ∈ s.fs.dirs <;>
    rcases hdd : dl { url := r.mediaUrl ++ ".mp3", authUser := sid, authPass := tok }
      with e2 | data <;>
    rcases mkr with e3 | u3 <;>
    rcases wrr with e4 | u4 <;>
    rcases gur with _ | e5 <;>
    rcases svr with _ | e6 <;>
    simp [saveRecordingAttempt, hc, hdd]

/-- C4: every acquisition attempt terminates with one of the three
outcomes; a retry is scheduled exactly when the provider reported zero
recordings (and always with the 30 s delay); an error in the listing or
the download ends the attempt as a logged error (returned, not thrown),
with no retry scheduled. -/
theorem acquisitionFailure_spec (sid tok pn : String) (env : WorkerEnv) (s : Sys) :
    ((saveRecordingAttempt sid tok pn env s).1 = AttemptStatus.retryScheduled retryDelayMs
        ↔ env.listResult = Except.ok []) ∧
    (∀ d, (saveRecordingAttempt sid tok pn env s).1 = AttemptStatus.retryScheduled d →
        d = retryDelayMs) ∧
    (∀ e, env.listResult = Except.error e →
        saveRecordingAttempt sid tok pn env s = (AttemptStatus.errorLogged e, s)) ∧
    (∀ e r rest, env.listResult = Except.ok (r :: rest) →
        env.download { url := r.mediaUrl ++ ".mp3", authUser := sid, authPass := tok } =
          Except.error e →
        (saveRecordingAttempt sid tok pn env s).1 = AttemptStatus.errorLogged e) := by
  refine ⟨⟨?_, ?_⟩, ?_, ?_, ?_⟩
  · intro hret
    rcases hl : env.listResult with e | (_ | ⟨r, rest⟩)
    · have hx : (saveRecordingAttempt sid tok pn env s).1 = AttemptStatus.errorLogged e := by
        simp [saveRecordingAttempt, hl]
      rw [hx] at hret
      simp at hret
    · rfl
    · exact absurd hret (attempt_not_retry_of_cons sid tok pn env s r rest hl _)
  · intro h
    simp [saveRecordingAttempt, h]
  · intro d hd
    rcases hl : env.listResult with e | (_ | ⟨r, rest⟩)
    · have hx : (saveRecordingAttempt sid tok pn env s).1 = AttemptStatus.errorLogged e := by
        simp [saveRecordingAttempt, hl]
      rw [hx] at hd
      simp at hd
    · have hx : (saveRecordingAttempt sid tok pn env s).1 =
          AttemptStatus.retryScheduled retryDelayMs := by
        simp [saveRecordingAttempt, hl]
      rw [hx] at hd
      injection hd with hd2
      exact hd2.symm
    · exact absurd hd (attempt_not_retry_of_cons sid tok pn env s r rest hl d)
  · intro e he
    simp [saveRecordingAttempt, he]
  · intro e r rest hl hd
    simp [saveRecordingAttempt, hl, hd]

/-- C4 witness: a listing failure ends the attempt as a logged error with
the state untouched (nothing thrown, nothing rescheduled). -/
theorem acquisitionFailure_spec_witness :
    saveRecordingAttempt ("AC") ("tok") ("+17206035208") listFailEnv initSys =
      (AttemptStatus.errorLogged ("ECONNRESET"), initSys) :=
  (acquisitionFailure_spec ("AC") ("tok") ("+17206035208") listFailEnv initSys).2.2.1
    ("ECONNRESET") rfl

/-! ### Helper lemmas for the reachable-state invariants (C7) -/

/-- Shape of the collection after `getUser`: unchanged, or the new user
appended. -/
theorem getUser_users_cases (pn : String) (db : DB) :
    (getUser pn db).2.users = db.users ∨
    (getUser pn db).2.users = db.users ++ [(getUser pn db).1] := by
  rcases hfind : db.users.find? (fun v => v.phoneNumber == pn) with _ | u
  · right
    simp [getUser, hfind]
  · left
    simp [getUser, hfind]

/-- Every existing user is still in the collection after `getUser`. -/
theorem getUser_users_sub (pn : String) (db : DB) (u : User)
    (hu : u ∈ db.users) : u ∈ (getUser pn db).2.users := by
  rcases getUser_users_cases pn db with h | h <;> rw [h]
  · exact hu
  · exact List.mem_append_left _ hu

/-- The user returned by `getUser` is in the resulting collection. -/
theorem getUser_mem_snd (pn : String) (db : DB) :
    (getUser pn db).1 ∈ (getUser pn db).2.users := by
  rcases hfind : db.users.find? (fun v => v.phoneNumber == pn) with _ | u
  · simp [getUser, hfind]
  · simp [getUser, hfind]
    exact List.mem_of_find?_eq_some hfind

/-- `getUser` preserves the structural database invariant. -/
theorem getUser_dbinv (pn : String) (db : DB) (h : DBInv db) :
    DBInv (getUser pn db).2 := by
  rcases hfind : db.users.find? (fun v => v.phoneNumber == pn) with _ | u
  · obtain ⟨h1, h2, h3⟩ := h
    have hall : ∀ v ∈ db.users, ¬(v.phoneNumber = pn) := by
      intro v hv
      have := List.find?_eq_none.mp hfind v hv
      simpa using this
    have husers : (getUser pn db).2.users = db.users ++ [newUser db.nextId pn] := by
      simp [getUser, hfind]
    have hnext : (getUser pn db).2.nextId = db.nextId + 1 := by
      simp [getUser, hfind]
    refine ⟨?_, ?_, ?_⟩
    · intro v hv
      rw [husers] at hv
      rw [hnext]
      rcases List.mem_append.mp hv with hv | hv
      · exact Nat.lt_succ_of_lt (h1 v hv)
      · have hv2 : v = newUser db.nextId pn := by simpa using hv
        subst hv2
        simp [newUser]
    · rw [husers, List.pairwise_append]
      refine ⟨h2, List.pairwise_singleton _ _, ?_⟩
      intro a ha b hb
      have hb2 : b = newUser db.nextId pn := by simpa using hb
      subst hb2
      exact Nat.ne_of_lt (h1 a ha)
    · rw [husers, List.pairwise_append]
      refine ⟨h3, List.pairwise_singleton _ _, ?_⟩
      intro a ha b hb
      have hb2 : b = newUser db.nextId pn := by simpa using hb
      subst hb2
      exact hall a ha
  · have hdb : (getUser pn db).2 = db := by simp [getUser, hfind]
    rw [hdb]
    exact h

/-- In a collection with pairwise-distinct ids, two members with the same
id are the same document. -/
theorem id_unique_of_pairwise (l : List User)
    (hp : l.Pairwise (fun a b => a.id ≠ b.id)) {u v : User}
    (hu : u ∈ l) (hv : v ∈ l) (hid : v.id = u.id) : v = u := by
  by_contra hne
  have hsymm : Symmetric (fun a b : User => a.id ≠ b.id) := fun _ _ h => Ne.symm h
  exact (hp.forall hsymm hv hu hne) hid

/-- Persisting a same-id, same-phone update of a member document keeps the
structural invariant. -/
theorem saveUser_dbinv (db : DB) (u u2 : User) (h : DBInv db)
    (hmem : u ∈ db.users) (hid : u2.id = u.id)
    (hpn : u2.phoneNumber = u.phoneNumber) : DBInv (db.saveUser u2) := by
  obtain ⟨h1, h2, h3⟩ := h
  have hf : ∀ v ∈ db.users,
      (if v.id = u2.id then u2 else v).id = v.id ∧
      (if v.id = u2.id then u2 else v).phoneNumber = v.phoneNumber := by
    intro v hv
    by_cases hvid : v.id = u2.id
    · have hv2 : v = u := id_unique_of_pairwise db.users h2 hmem hv (by rw [hvid, hid])
      subst hv2
      rw [if_pos hvid]
      exact ⟨hid, hpn⟩
    · rw [if_neg hvid]
      exact ⟨rfl, rfl⟩
  refine ⟨?_, ?_, ?_⟩
  · intro w hw
    obtain ⟨v, hv, hw2⟩ := List.mem_map.mp hw
    have hlt := h1 v hv
    rw [← (hf v hv).1] at hlt
    rw [← hw2]
    exact hlt
  · rw [show (db.saveUser u2).users =
        db.users.map (fun v => if v.id = u2.id then u2 else v) from rfl]
    rw [List.pairwise_map]
    refine List.Pairwise.imp_of_mem ?_ h2
    intro a b ha hb hne
    rw [(hf a ha).1, (hf b hb).1]
    exact hne
  · rw [show (db.saveUser u2).users =
        db.users.map (fun v => if v.id = u2.id then u2 else v) from rfl]
    rw [List.pairwise_map]
    refine List.Pairwise.imp_of_mem ?_ h3
    intro a b ha hb hne
    rw [(hf a ha).2, (hf b hb).2]
    exact hne

/-- A same-id update of a member is itself a member of the updated
collection. -/
theorem mem_map_update_self (l : List User) (g u2 : User) (hg : g ∈ l)
    (hid : u2.id = g.id) :
    u2 ∈ l.map (fun v => if v.id = u2.id then u2 else v) := by
  refine List.mem_map.mpr ⟨g, hg, ?_⟩
  show (if g.id = u2.id then u2 else g) = u2
  rw [if_pos hid.symm]

/-- A member whose id differs from the update is kept unchanged in the
updated collection. -/
theorem mem_map_update_other (l : List User) (u u2 : User) (hu : u ∈ l)
    (hid : ¬(u.id = u2.id)) :
    u ∈ l.map (fun v => if v.id = u2.id then u2 else v) := by
  refine List.mem_map.mpr ⟨u, hu, ?_⟩
  show (if u.id = u2.id then u2 else u) = u
  rw [if_neg hid]

/-- The history-append performed by the worker keeps the structural
invariant. -/
theorem dbinv_getUser_save (pn : String) (db : DB) (entry : HistoryEntry)
    (h : DBInv db) :
    DBInv ((getUser pn db).2.saveUser
      { (getUser pn db).1 with
        callHistory := (getUser pn db).1.callHistory ++ [entry] }) :=
  saveUser_dbinv (getUser pn db).2 (getUser pn db).1 _
    (getUser_dbinv pn db h) (getUser_mem_snd pn db) rfl rfl

/-- Leaving the collection alone is an extension. -/
theorem extendsDB_refl (db : DB) : ExtendsDB db db := by
  intro u hu
  exact ⟨u, hu, rfl, rfl, [], (List.append_nil _).symm⟩

/-- `getUser` only ever appends a new document, so it extends the
collection. -/
theorem extendsDB_getUser (pn : String) (db : DB) :
    ExtendsDB db (getUser pn db).2 := by
  intro u hu
  exact ⟨u, getUser_users_sub pn db u hu, rfl, rfl, [], (List.append_nil _).symm⟩

/-- The worker's history append extends the collection: the touched user
gains exactly one trailing entry, every other user is untouched. -/
theorem extendsDB_getUser_save (pn : String) (db : DB) (entry : HistoryEntry)
    (hinv : DBInv db) :
    ExtendsDB db ((getUser pn db).2.saveUser
      { (getUser pn db).1 with
        callHistory := (getUser pn db).1.callHistory ++ [entry] }) := by
  intro u hu
  have hinv1 := getUser_dbinv pn db hinv
  have hu1 : u ∈ (getUser pn db).2.users := getUser_users_sub pn db u hu
  by_cases hid : u.id = (getUser pn db).1.id
  · have hueq : u = (getUser pn db).1 :=
      id_unique_of_pairwise (getUser pn db).2.users hinv1.2.1
        (getUser_mem_snd pn db) hu1 hid
    refine ⟨{ (getUser pn db).1 with
        callHistory := (getUser pn db).1.callHistory ++ [entry] }, ?_, ?_, ?_, ?_⟩
    · exact mem_map_update_self (getUser pn db).2.users (getUser pn db).1 _
        (getUser_mem_snd pn db) rfl
    · exact hid.symm
    · rw [hueq]
    · refine ⟨[entry], ?_⟩
      rw [hueq]
  · refine ⟨u, ?_, rfl, rfl, [], (List.append_nil _).symm⟩
    exact mem_map_update_other (getUser pn db).2.users u _ hu1 hid

/-- Database outcomes of one acquisition attempt: untouched, touched only
by the user lookup, or lookup plus a one-entry history append. -/
theorem attempt_db_cases (sid tok pn : String) (env : WorkerEnv) (s : Sys) :
    (saveRecordingAttempt sid tok pn env s).2.db = s.db ∨
    (saveRecordingAttempt sid tok pn env s).2.db = (getUser pn s.db).2 ∨
    ∃ entry : HistoryEntry,
      (saveRecordingAttempt sid tok pn env s).2.db =
        (getUser pn s.db).2.saveUser
          { (getUser pn s.db).1 with
            callHistory := (getUser pn s.db).1.callHistory ++ [entry] } := by
  obtain ⟨lr, dl, mkr, wrr, gur, svr⟩ := env
  rcases lr with e | (_ | ⟨r, rest⟩)
  · exact Or.inl rfl
  · exact Or.inl rfl
  · rcases hdd : dl { url := r.mediaUrl ++ ".mp3", authUser := sid, authPass := tok }
      with e2 | data
    · left
      simp [saveRecordingAttempt, hdd]
    · by_cases hc : ("./recordings" : String) ∈ s.fs.dirs <;>
        rcases mkr with e3 | u3 <;>
        rcases wrr with e4 | u4 <;>
        rcases gur with _ | e5 <;>
        rcases svr with _ | e6 <;>
        simp [saveRecordingAttempt, hdd, hc] <;>
        first
          | exact Or.inl rfl
          | exact Or.inr (Or.inl rfl)
          | exact Or.inr (Or.inr ⟨_, rfl⟩)

/-- Database outcomes of the GET route: untouched or user lookup. -/
theorem getUserRoute_db (pn : String) (f : Option String) (s : Sys) :
    (getUserRoute pn f s).sys.db = s.db ∨
    (getUserRoute pn f s).sys.db = (getUser pn s.db).2 := by
  cases f with
  | some e => exact Or.inl rfl
  | none => exact Or.inr rfl

/-- Database outcomes of the POST route: untouched or user lookup. -/
theorem postConversation_db (pnv tv : JsValue) (f g : Option String) (s : Sys) :
    (postConversation pnv tv f g s).sys.db = s.db ∨
    (postConversation pnv tv f g s).sys.db = (getUser (jsKey pnv) s.db).2 := by
  by_cases ht : (!(truthy pnv && truthy tv)) = true
  · unfold postConversation
    rw [if_pos ht]
    exact Or.inl rfl
  · unfold postConversation
    rw [if_neg ht]
    rcases f with _ | e
    · rcases g with _ | e2
      · exact Or.inr rfl
      · exact Or.inr rfl
    · exact Or.inl rfl

/-- Every operation preserves the structural database invariant. -/
theorem sysStep_dbinv (s : Sys) (op : SysOp) (h : DBInv s.db) :
    DBInv (sysStep s op).db := by
  cases op with
  | httpGetUser pn f =>
      rcases getUserRoute_db pn f s with h2 | h2
      · show DBInv (getUserRoute pn f s).sys.db
        rw [h2]
        exact h
      · show DBInv (getUserRoute pn f s).sys.db
        rw [h2]
        exact getUser_dbinv pn s.db h
  | httpPostConversation pnv tv f g =>
      rcases postConversation_db pnv tv f g s with h2 | h2
      · show DBInv (postConversation pnv tv f g s).sys.db
        rw [h2]
        exact h
      · show DBInv (postConversation pnv tv f g s).sys.db
        rw [h2]
        exact getUser_dbinv (jsKey pnv) s.db h
  | workerAttempt sid tok pn env =>
      rcases attempt_db_cases sid tok pn env s with h2 | h2 | ⟨entry, h2⟩
      · show DBInv (saveRecordingAttempt sid tok pn env s).2.db
        rw [h2]
        exact h
      · show DBInv (saveRecordingAttempt sid tok pn env s).2.db
        rw [h2]
        exact getUser_dbinv pn s.db h
      · show DBInv (saveRecordingAttempt sid tok pn env s).2.db
        rw [h2]
        exact dbinv_getUser_save pn s.db entry h
  | mainGetUser pn =>
      show DBInv (getUser pn s.db).2
      exact getUser_dbinv pn s.db h

/-- Every operation only extends the user collection (no deletion, no
history rewrite). -/
theorem sysStep_extends (s : Sys) (op : SysOp) (h : DBInv s.db) :
    ExtendsDB s.db (sysStep s op).db := by
  cases op with
  | httpGetUser pn f =>
      rcases getUserRoute_db pn f s with h2 | h2
      · show ExtendsDB s.db (getUserRoute pn f s).sys.db
        rw [h2]
        exact extendsDB_refl s.db
      · show ExtendsDB s.db (getUserRoute pn f s).sys.db
        rw [h2]
        exact extendsDB_getUser pn s.db
  | httpPostConversation pnv tv f g =>
      rcases postConversation_db pnv tv f g s with h2 | h2
      · show ExtendsDB s.db (postConversation pnv tv f g s).sys.db
        rw [h2]
        exact extendsDB_refl s.db
      · show ExtendsDB s.db (postConversation pnv tv f g s).sys.db
        rw [h2]
        exact extendsDB_getUser (jsKey pnv) s.db
  | workerAttempt sid tok pn env =>
      rcases attempt_db_cases sid tok pn env s with h2 | h2 | ⟨entry, h2⟩
      · show ExtendsDB s.db (saveRecordingAttempt sid tok pn env s).2.db
        rw [h2]
        exact extendsDB_refl s.db
      · show ExtendsDB s.db (saveRecordingAttempt sid tok pn env s).2.db
        rw [h2]
        exact extendsDB_getUser pn s.db
      · show ExtendsDB s.db (saveRecordingAttempt sid tok pn env s).2.db
        rw [h2]
        exact extendsDB_getUser_save pn s.db entry h
  | mainGetUser pn =>
      show ExtendsDB s.db (getUser pn s.db).2
      exact extendsDB_getUser pn s.db

/-- Every reachable state satisfies the structural database invariant. -/
theorem reachable_dbinv (s : Sys) (h : Reachable s) : DBInv s.db := by
  induction h with
  | init => refine ⟨?_, ?_, ?_⟩ <;> simp [initSys]
  | step s2 op h2 ih => exact sysStep_dbinv s2 op ih

/-! ### C7 — uniqueness and append-only invariants -/

/-- C7: in every reachable state phone numbers are pairwise distinct (each
phone number maps to at most one User), and every operation only extends
the user collection — each existing user survives with its id and phone
number and its call history extended on the right only (no removal,
reorder or rewrite of entries, no user deletion). -/
theorem userInvariants (s : Sys) (hr : Reachable s) :
    s.db.users.Pairwise (fun a b => a.phoneNumber ≠ b.phoneNumber) ∧
    ∀ op : SysOp, ExtendsDB s.db (sysStep s op).db :=
  ⟨(reachable_dbinv s hr).2.2, fun op => sysStep_extends s op (reachable_dbinv s hr)⟩

/-- C7 witness: a concrete reachable state (after the bootstrap user
lookup) has pairwise-distinct phone numbers and is only extended by a
further concrete operation. -/
theorem userInvariants_witness :
    (sysStep initSys (SysOp.mainGetUser ("+17206035208"))).db.users.Pairwise
      (fun a b => a.phoneNumber ≠ b.phoneNumber) ∧
    ExtendsDB (sysStep initSys (SysOp.mainGetUser ("+17206035208"))).db
      (sysStep (sysStep initSys (SysOp.mainGetUser ("+17206035208")))
        (SysOp.httpGetUser ("+15551234") none)).db :=
  ⟨(userInvariants _ (Reachable.step initSys _ Reachable.init)).1,
   (userInvariants _ (Reachable.step initSys _ Reachable.init)).2 _⟩
